import Mathlib

/-!
Shallow embedding of the Backup role of the haret VR protocol
(`src/vr/states/backup.rs`) and proofs about its handlers.

The Backup role consumes one inbound protocol message at a time together
with its replication context (`VrCtx`) and returns the next role plus a
list of outbound envelopes.  Collaborator functions living outside the
provided source file (the `up_to_date!` freshness macro, `VrCtx` accessors
such as `compute_primary`, and the peer-role constructors) are modelled
from the specification; each such definition carries a doc comment saying
so.  Functions present in `backup.rs` are translated directly and keep
their source names.

Machine integers (`u64`) are modelled as `Nat`: all counters in the source
only ever grow by small increments and are never wrapped.  The one
fallible operation, log indexing `self.log[i as usize]` inside `commit`
(which panics when out of bounds), is modelled by returning `none`.
`SteadyTime::now()` is modelled by passing the current time `now : Nat`
into each handler that reads the clock.
-/

/-- Process identifier (`rabble::Pid`), modelled as a natural number. -/
abbrev Pid := Nat

/-- Correlation identifier (`rabble::CorrelationId`), modelled as a natural
number.  Envelopes the source sends without a visible correlation id
(namespace-manager notifications, broadcasts) are modelled with id 0. -/
abbrev CorrelationId := Nat

/-- A client request carried in the log (`vr_msg::ClientRequest`).  The
backend operation payload is modelled as a natural number. -/
structure ClientRequest where
  op : Nat
  client_id : Nat
  request_num : Nat
deriving DecidableEq, Repr

/-- A reconfiguration request carried in the log
(`vr_msg::Reconfiguration`): the new epoch and the new replica set. -/
structure ReconfigurationMsg where
  client_req_num : Nat
  epoch : Nat
  replicas : List Pid
deriving DecidableEq, Repr

/-- A log entry (`vr_msg::ClientOp`). -/
inductive ClientOp
  | request (r : ClientRequest)
  | reconfiguration (r : ReconfigurationMsg)
deriving DecidableEq, Repr

/-- Payload of an outbound envelope: the protocol and namespace-manager
messages the Backup role can produce. -/
inductive RMsg
  | prepareOk (epoch view op : Nat) (sender : Pid)
  | newPrimary (p : Pid)
  | reconfigurationAnnouncement (epoch : Nat) (replicas : List Pid)
  | startViewChangeMsg (epoch view : Nat) (sender : Pid)
  | epochStarted (epoch : Nat)
  | recoveryResponse (nonce : Nat)
  | newState (op : Nat)
deriving DecidableEq, Repr

/-- An outbound envelope (`rabble::Envelope`): destination, source,
payload and correlation id. -/
structure Envelope where
  dst : Pid
  src : Pid
  msg : RMsg
  cid : CorrelationId
deriving DecidableEq, Repr

/-- The replication context (`vr::vr_ctx::VrCtx`).  `backend` is the trace
of operations executed against the Backend, in execution order;
`replicas` is the current membership (the new configuration) and
`old_replicas` the previous one, used to address epoch-started
notifications to removed replicas.  `idle_timeout_ms` is the configured
idle timeout. -/
structure VrCtx where
  pid : Pid
  epoch : Nat
  view : Nat
  op : Nat
  commit_num : Nat
  log : List ClientOp
  last_received_time : Nat
  last_normal_view : Nat
  reconfiguration_in_progress : Bool
  replicas : List Pid
  old_replicas : List Pid
  idle_timeout_ms : Nat
  backend : List Nat
  namespace_mgr : Pid
deriving DecidableEq, Repr

/-- Modelled from the spec: the primary is "a pure deterministic function
of (epoch, view, membership)" (§3).  `VrCtx::compute_primary` is not in
the provided source; we model it as membership indexed by view modulo the
membership size. -/
def VrCtx.compute_primary (ctx : VrCtx) : Pid :=
  ctx.replicas.getD (ctx.view % ctx.replicas.length) ctx.pid

/-- Modelled from the spec: `VrCtx::update_for_new_epoch` is not in the
provided source; §4.2 says the Reconfiguration commit arm must "update
membership".  The first argument mirrors the op number the source passes
(`i+1`); the spec assigns it no observable effect here, so it is kept only
for signature fidelity. -/
def VrCtx.update_for_new_epoch (ctx : VrCtx) (opnum : Nat) (replicas : List Pid) : VrCtx :=
  let _ := opnum
  { ctx with old_replicas := ctx.replicas, replicas := replicas }

/-- Modelled from the spec: `VrCtx::announce_reconfiguration` is not in
the provided source; §4.2 says the replica must "announce the
reconfiguration to the Namespace Manager".  Modelled as the envelope that
announcement produces. -/
def VrCtx.announce_reconfiguration (ctx : VrCtx) : Envelope :=
  { dst := ctx.namespace_mgr, src := ctx.pid,
    msg := RMsg.reconfigurationAnnouncement ctx.epoch ctx.replicas, cid := 0 }

/-- Modelled from the spec: `VrCtx::namespace_mgr_envelope` is not in the
provided source; it wraps a namespace-manager message in an envelope
addressed to the namespace manager (§6). -/
def VrCtx.namespace_mgr_envelope (ctx : VrCtx) (m : RMsg) : Envelope :=
  { dst := ctx.namespace_mgr, src := ctx.pid, msg := m, cid := 0 }

/-- Modelled from the spec: `VrCtx::is_leaving` is not in the provided
source; §4.2 step 1 reads "this replica is marked as being removed by the
new configuration", i.e. its pid is absent from the new membership. -/
def VrCtx.is_leaving (ctx : VrCtx) : Bool :=
  !(ctx.replicas.contains ctx.pid)

/-- Modelled from the spec: `VrCtx::is_primary` is not in the provided
source; the replica is primary when it equals the computed primary for
the current epoch/view/membership. -/
def VrCtx.is_primary (ctx : VrCtx) : Bool :=
  ctx.compute_primary == ctx.pid

/-- Modelled from the spec: `VrCtx::idle_timeout` is not in the provided
source; §8 fixes the boundary as "elapsed time at/above the timeout". -/
def VrCtx.idle_timeout (ctx : VrCtx) (now : Nat) : Bool :=
  ctx.idle_timeout_ms ≤ now - ctx.last_received_time

/-- Modelled from the spec: the `up_to_date!` freshness macro is not in
the provided source; §4.1/§7 say a message whose epoch or view mismatches
the local one is ignored outright.  Returns `true` when the message passes
the filter. -/
def up_to_date (ctx : VrCtx) (epoch view : Nat) : Bool :=
  epoch == ctx.epoch && view == ctx.view

/-- The fields of a `Prepare` message used by the Backup role. -/
structure PrepareMsg where
  epoch : Nat
  view : Nat
  op : Nat
  commit_num : Nat
  msg : ClientOp
deriving DecidableEq, Repr

/-- The fields of a `Commit` message used by the Backup role. -/
structure CommitMsg where
  epoch : Nat
  view : Nat
  commit_num : Nat
deriving DecidableEq, Repr

/-- The fields of a `StartViewChange` message used by the Backup role. -/
structure StartViewChangeMsg where
  epoch : Nat
  view : Nat
  sender : Pid
deriving DecidableEq, Repr

/-- The fields of a `DoViewChange` message used by the Backup role. -/
structure DoViewChangeMsg where
  epoch : Nat
  view : Nat
deriving DecidableEq, Repr

/-- The fields of a `StartView` message used by the Backup role. -/
structure StartViewMsg where
  epoch : Nat
  view : Nat
  op : Nat
  log : List ClientOp
  commit_num : Nat
deriving DecidableEq, Repr

/-- The fields of a `GetState` message used by the Backup role. -/
structure GetStateMsg where
  epoch : Nat
  view : Nat
  op : Nat
deriving DecidableEq, Repr

/-- The fields of a `Recovery` message used by the Backup role. -/
structure RecoveryMsg where
  nonce : Nat
deriving DecidableEq, Repr

/-- The fields of a `StartEpoch` message used by the Backup role. -/
structure StartEpochMsg where
  epoch : Nat
deriving DecidableEq, Repr

/-- Inbound protocol messages (`vr_msg::VrMsg`); `other` stands for the
remaining variants caught by the dispatcher's wildcard arm. -/
inductive VrMsg
  | prepare (m : PrepareMsg)
  | commitMsg (m : CommitMsg)
  | startViewChange (m : StartViewChangeMsg)
  | doViewChange (m : DoViewChangeMsg)
  | startView (m : StartViewMsg)
  | tick
  | getState (m : GetStateMsg)
  | recovery (m : RecoveryMsg)
  | startEpoch (m : StartEpochMsg)
  | other
deriving DecidableEq, Repr

/-- The Backup role: its context and the cached primary identity
(`state!(Backup { ctx: VrCtx, primary: Pid })`). -/
structure Backup where
  ctx : VrCtx
  primary : Pid
deriving DecidableEq, Repr

/-- The role returned by a transition (`VrState`).  Peer roles are
abstract; each carries the context handed to it. -/
inductive VrState
  | backup (b : Backup)
  | primary (ctx : VrCtx)
  | stateTransfer (ctx : VrCtx)
  | leaving (ctx : VrCtx)
  | startViewChange (ctx : VrCtx)
  | doViewChange (ctx : VrCtx)
deriving DecidableEq, Repr

/-- The context carried by a role. -/
def VrState.ctx : VrState → VrCtx
  | .backup b => b.ctx
  | .primary c => c
  | .stateTransfer c => c
  | .leaving c => c
  | .startViewChange c => c
  | .doViewChange c => c

namespace StateTransfer

/-- Modelled from the spec: `StateTransfer::start_same_view` is not in the
provided source; §4.1 says the replica "transitions to the StateTransfer
role (same view) to resynchronize" and §6 gives the contract
`StateTransfer.start(context) -> role`. -/
def start_same_view (b : Backup) (out : List Envelope) : VrState × List Envelope :=
  (VrState.stateTransfer b.ctx, out)

/-- Modelled from the spec: `StateTransfer::send_new_state` is not in the
provided source; §6 gives `StateTransfer.respond(context, op, requester)
-> message`, routed back to the requester with the correlation id. -/
def send_new_state (ctx : VrCtx) (op : Nat) (requester : Pid) (cid : CorrelationId) : Envelope :=
  { dst := requester, src := ctx.pid, msg := RMsg.newState op, cid := cid }

end StateTransfer

namespace Recovery

/-- Modelled from the spec: `Recovery::send_response` is not in the
provided source; §6 gives `Recovery.respond(context, requester, nonce) ->
message`, routed back to the requester with the correlation id. -/
def send_response (ctx : VrCtx) (requester : Pid) (nonce : Nat) (cid : CorrelationId) : Envelope :=
  { dst := requester, src := ctx.pid, msg := RMsg.recoveryResponse nonce, cid := cid }

end Recovery

namespace Reconfiguration

/-- Modelled from the spec: `Reconfiguration::send_epoch_started` is not
in the provided source; §6 says the response is routed back to the
requester with the correlation id preserved. -/
def send_epoch_started (ctx : VrCtx) (requester : Pid) (cid : CorrelationId)
    (out : List Envelope) : List Envelope :=
  out ++ [{ dst := requester, src := ctx.pid, msg := RMsg.epochStarted ctx.epoch, cid := cid }]

/-- Modelled from the spec: `Reconfiguration::broadcast_epoch_started` is
not in the provided source; §4.2 step 2 broadcasts "an epoch-started
notification to replicas being removed", i.e. members of the old
configuration absent from the new one. -/
def broadcast_epoch_started (ctx : VrCtx) : List Envelope :=
  (ctx.old_replicas.filter (fun p => !(ctx.replicas.contains p))).map
    (fun p => { dst := p, src := ctx.pid, msg := RMsg.epochStarted ctx.epoch, cid := 0 })

end Reconfiguration

namespace StartViewChange

/-- Modelled from the spec: `StartViewChange::start_view_change` is not in
the provided source; §4.1 says the Backup "delegates entirely to the
corresponding external peer-role constructor", so it is modelled as the
role change alone. -/
def start_view_change (ctx : VrCtx) (sender : Pid) (m : StartViewChangeMsg)
    (out : List Envelope) : VrState × List Envelope :=
  let _ := sender
  let _ := m
  (VrState.startViewChange ctx, out)

/-- Modelled from the spec: `broadcast_start_view_change` is not in the
provided source; §6 says the broadcast is "addressed to all known peers",
i.e. every member of the current configuration other than this replica. -/
def broadcast_start_view_change (ctx : VrCtx) (out : List Envelope) : List Envelope :=
  out ++ (ctx.replicas.filter (fun p => p ≠ ctx.pid)).map
    (fun p => { dst := p, src := ctx.pid,
                msg := RMsg.startViewChangeMsg ctx.epoch ctx.view ctx.pid, cid := 0 })

end StartViewChange

namespace DoViewChange

/-- Modelled from the spec: `DoViewChange::start_do_view_change` is not in
the provided source; §4.1 says the Backup delegates entirely to the
external constructor, so it is modelled as the role change alone. -/
def start_do_view_change (b : Backup) (sender : Pid) (m : DoViewChangeMsg)
    (out : List Envelope) : VrState × List Envelope :=
  let _ := sender
  let _ := m
  (VrState.doViewChange b.ctx, out)

end DoViewChange

namespace Backup

/-- `Backup::prepare_ok_msg`: the acknowledgment carrying the local epoch,
view and op. -/
def prepare_ok_msg (b : Backup) : RMsg :=
  RMsg.prepareOk b.ctx.epoch b.ctx.view b.ctx.op b.ctx.pid

/-- `Backup::send_to_primary`: wrap a message in an envelope addressed to
the cached primary. -/
def send_to_primary (b : Backup) (m : RMsg) (cid : CorrelationId) : Envelope :=
  { dst := b.primary, src := b.ctx.pid, msg := m, cid := cid }

/-- `Backup::set_primary`: recompute the primary, cache it and notify the
namespace manager. -/
def set_primary (b : Backup) (out : List Envelope) : Backup × List Envelope :=
  let primary := b.ctx.compute_primary
  ({ b with primary := primary },
   out ++ [b.ctx.namespace_mgr_envelope (RMsg.newPrimary primary)])

/-- `Backup::send_prepare_ok`: bump the clock, append the operation,
increment op and acknowledge to the primary.  The `commit_num` parameter
is unused, as in the source. -/
def send_prepare_ok (b : Backup) (m : ClientOp) (commit_num : Nat) (cid : CorrelationId)
    (now : Nat) (out : List Envelope) : Backup × List Envelope :=
  let _ := commit_num
  let ctx := { b.ctx with
    last_received_time := now,
    op := b.ctx.op + 1,
    log := b.ctx.log ++ [m] }
  let b := { b with ctx := ctx }
  (b, out ++ [b.send_to_primary b.prepare_ok_msg cid])

/-- `Backup::enter_transitioning` translated literally: the source builds
`Primary::from(self).into()` inside `if self.ctx.is_primary()` without a
`return`, so the converted primary role is discarded and control falls
through to the final `self.into()`, returning a Backup. -/
def enter_transitioning (b : Backup) (out : List Envelope) : VrState × List Envelope :=
  if b.ctx.is_leaving then
    (VrState.leaving b.ctx, out)
  else
    let out := out ++ Reconfiguration.broadcast_epoch_started b.ctx
    if b.ctx.is_primary then
      let b := { b with ctx := { b.ctx with reconfiguration_in_progress := false } }
      (VrState.backup b, out)
    else
      (VrState.backup b, out)

/-- The loop body of `Backup::commit`: `k` is the number of remaining
iterations (`new_commit_num - i` at entry), `i` the current index and
`target` the value of `new_commit_num`.  `none` models the out-of-bounds
panic of `self.log[i as usize]`. -/
def commitK (b : Backup) (i k target : Nat) (out : List Envelope) :
    Option (VrState × List Envelope) :=
  match k with
  | 0 => some (VrState.backup { b with ctx := { b.ctx with commit_num := target } }, out)
  | Nat.succ k =>
    match b.ctx.log[i]? with
    | none => none
    | some (ClientOp.request req) =>
        commitK { b with ctx := { b.ctx with backend := b.ctx.backend ++ [req.op] } }
          (i + 1) k target out
    | some (ClientOp.reconfiguration r) =>
        let ctx2 := VrCtx.update_for_new_epoch { b.ctx with epoch := r.epoch } (i + 1) r.replicas
        let out1 := out ++ [ctx2.announce_reconfiguration]
        let pr := set_primary { b with ctx := ctx2 } out1
        if target = pr.1.ctx.log.length then
          some (enter_transitioning { pr.1 with ctx := { pr.1.ctx with commit_num := target } } pr.2)
        else
          commitK pr.1 (i + 1) k target pr.2

/-- `Backup::commit`: replay log entries from the current commit number
(exclusive lower bound as loop start) up to `new_commit_num`. -/
def commit (b : Backup) (new_commit_num : Nat) (out : List Envelope) :
    Option (VrState × List Envelope) :=
  commitK b b.ctx.commit_num (new_commit_num - b.ctx.commit_num) new_commit_num out

/-- `Backup::become_backup`: wholesale adoption of the view, op and log
from an authoritative `StartView`, followed by primary recomputation and
commit replay. -/
def become_backup (b : Backup) (view op : Nat) (log : List ClientOp) (commit_num : Nat)
    (now : Nat) (out : List Envelope) : Option (VrState × List Envelope) :=
  let ctx := { b.ctx with
    last_received_time := now,
    view := view,
    op := op,
    log := log,
    last_normal_view := view }
  let pr := set_primary { b with ctx := ctx } out
  commit pr.1 commit_num pr.2

/-- `Backup::handle_prepare`. -/
def handle_prepare (b : Backup) (m : PrepareMsg) (sender : Pid) (cid : CorrelationId)
    (now : Nat) (out : List Envelope) : Option (VrState × List Envelope) :=
  let _ := sender
  if up_to_date b.ctx m.epoch m.view then
    let b := { b with ctx := { b.ctx with last_received_time := now } }
    if m.op = b.ctx.op + 1 then
      let pr := send_prepare_ok b m.msg m.commit_num cid now out
      commit pr.1 m.commit_num pr.2
    else if m.op > b.ctx.op + 1 then
      some (StateTransfer.start_same_view b out)
    else
      some (VrState.backup b, out)
  else
    some (VrState.backup b, out)

/-- `Backup::handle_commit`. -/
def handle_commit (b : Backup) (m : CommitMsg) (sender : Pid) (cid : CorrelationId)
    (now : Nat) (out : List Envelope) : Option (VrState × List Envelope) :=
  let _ := sender
  let _ := cid
  if up_to_date b.ctx m.epoch m.view then
    let b := { b with ctx := { b.ctx with last_received_time := now } }
    if m.commit_num = b.ctx.commit_num then
      some (VrState.backup b, out)
    else if m.commit_num = b.ctx.op then
      commit b m.commit_num out
    else
      some (StateTransfer.start_same_view b out)
  else
    some (VrState.backup b, out)

/-- `Backup::handle_start_view_change`. -/
def handle_start_view_change (b : Backup) (m : StartViewChangeMsg) (sender : Pid)
    (cid : CorrelationId) (out : List Envelope) : VrState × List Envelope :=
  let _ := cid
  if m.epoch ≠ b.ctx.epoch then
    (VrState.backup b, out)
  else if m.view ≤ b.ctx.view then
    (VrState.backup b, out)
  else
    StartViewChange.start_view_change b.ctx sender m out

/-- `Backup::handle_do_view_change`. -/
def handle_do_view_change (b : Backup) (m : DoViewChangeMsg) (sender : Pid)
    (cid : CorrelationId) (out : List Envelope) : VrState × List Envelope :=
  let _ := cid
  if m.epoch ≠ b.ctx.epoch then
    (VrState.backup b, out)
  else if m.view ≤ b.ctx.view then
    (VrState.backup b, out)
  else
    DoViewChange.start_do_view_change b sender m out

/-- `Backup::handle_start_view`. -/
def handle_start_view (b : Backup) (m : StartViewMsg) (sender : Pid) (cid : CorrelationId)
    (now : Nat) (out : List Envelope) : Option (VrState × List Envelope) :=
  let _ := sender
  let _ := cid
  if m.epoch < b.ctx.epoch then
    some (VrState.backup b, out)
  else if m.epoch = b.ctx.epoch ∧ m.view ≤ b.ctx.view then
    some (VrState.backup b, out)
  else
    become_backup b m.view m.op m.log m.commit_num now out

/-- `Backup::handle_tick`. -/
def handle_tick (b : Backup) (now : Nat) (out : List Envelope) : VrState × List Envelope :=
  if b.ctx.idle_timeout now then
    let ctx := { b.ctx with last_received_time := now, view := b.ctx.view + 1 }
    (VrState.startViewChange ctx, StartViewChange.broadcast_start_view_change ctx out)
  else
    (VrState.backup b, out)

/-- `Backup::handle_get_state`. -/
def handle_get_state (b : Backup) (m : GetStateMsg) (sender : Pid) (cid : CorrelationId)
    (out : List Envelope) : VrState × List Envelope :=
  if up_to_date b.ctx m.epoch m.view then
    if m.epoch ≠ b.ctx.epoch ∨ m.view ≠ b.ctx.view then
      (VrState.backup b, out)
    else
      (VrState.backup b, out ++ [StateTransfer.send_new_state b.ctx m.op sender cid])
  else
    (VrState.backup b, out)

/-- `Backup::handle_recovery`: no freshness filter, unconditional
response. -/
def handle_recovery (b : Backup) (m : RecoveryMsg) (sender : Pid) (cid : CorrelationId)
    (out : List Envelope) : VrState × List Envelope :=
  (VrState.backup b, out ++ [Recovery.send_response b.ctx sender m.nonce cid])

/-- `Backup::handle_start_epoch`: no freshness filter, unconditional
response. -/
def handle_start_epoch (b : Backup) (m : StartEpochMsg) (sender : Pid) (cid : CorrelationId)
    (out : List Envelope) : VrState × List Envelope :=
  let _ := m
  (VrState.backup b, Reconfiguration.send_epoch_started b.ctx sender cid out)

/-- The dispatcher (`impl Transition for Backup`). -/
def handle (b : Backup) (msg : VrMsg) (sender : Pid) (cid : CorrelationId)
    (now : Nat) (out : List Envelope) : Option (VrState × List Envelope) :=
  match msg with
  | .prepare m => b.handle_prepare m sender cid now out
  | .commitMsg m => b.handle_commit m sender cid now out
  | .startViewChange m => some (b.handle_start_view_change m sender cid out)
  | .doViewChange m => some (b.handle_do_view_change m sender cid out)
  | .startView m => b.handle_start_view m sender cid now out
  | .tick => some (b.handle_tick now out)
  | .getState m => some (b.handle_get_state m sender cid out)
  | .recovery m => some (b.handle_recovery m sender cid out)
  | .startEpoch m => some (b.handle_start_epoch m sender cid out)
  | .other => some (VrState.backup b, out)

end Backup

/-! ### Helper definitions naming the Reconfiguration arm of `commit` -/

/-- The context after the Reconfiguration arm of the commit loop adopts
the new epoch and membership (log entry at index `i`). -/
def reconfigCtx (ctx : VrCtx) (i : Nat) (r : ReconfigurationMsg) : VrCtx :=
  VrCtx.update_for_new_epoch { ctx with epoch := r.epoch } (i + 1) r.replicas

/-- The Backup after the Reconfiguration arm of the commit loop, with the
primary recomputed by `set_primary`. -/
def reconfigBackup (b : Backup) (i : Nat) (r : ReconfigurationMsg) : Backup :=
  (Backup.set_primary { b with ctx := reconfigCtx b.ctx i r }
    (List.nil ++ [(reconfigCtx b.ctx i r).announce_reconfiguration])).1

/-- The output list after the Reconfiguration arm of the commit loop: the
reconfiguration announcement followed by the new-primary notification. -/
def reconfigOut (b : Backup) (i : Nat) (r : ReconfigurationMsg) (out : List Envelope) :
    List Envelope :=
  (Backup.set_primary { b with ctx := reconfigCtx b.ctx i r }
    (out ++ [(reconfigCtx b.ctx i r).announce_reconfiguration])).2

/-! ### Sample states used by witnesses and counterexamples -/

/-- A concrete replication context: replica 2 of a three-replica group in
epoch 1, view 0, with an empty log. -/
def sampleCtx : VrCtx :=
  { pid := 2, epoch := 1, view := 0, op := 0, commit_num := 0, log := [],
    last_received_time := 0, last_normal_view := 0,
    reconfiguration_in_progress := false, replicas := [0, 1, 2],
    old_replicas := [0, 1, 2], idle_timeout_ms := 5, backend := [],
    namespace_mgr := 100 }

/-- The Backup role on `sampleCtx`; its cached primary is the computed
primary (replica 0). -/
def sampleBackup : Backup := { ctx := sampleCtx, primary := 0 }

/-- Recognizer for new-primary notifications, used to state that an
output contains no primary recomputation announcement. -/
def RMsg.is_new_primary : RMsg → Bool
  | RMsg.newPrimary _ => true
  | _ => false

/-- A reconfiguration entry moving to epoch 2 with membership `[0, 1]`
(dropping replica 2). -/
def reconfigEntry : ReconfigurationMsg := { client_req_num := 0, epoch := 2, replicas := [0, 1] }

/-- A Backup whose log holds the reconfiguration entry at index 0
followed by a plain request: the reconfiguration entry is not the last
log entry. -/
def backupWithReconfig : Backup :=
  { ctx := { sampleCtx with
      log := [ClientOp.reconfiguration reconfigEntry,
              ClientOp.request { op := 7, client_id := 0, request_num := 0 }] },
    primary := 0 }

/-- A context just after adopting a new configuration in which this
replica (pid 2) is the computed primary and replicas 0 and 1 have been
removed. -/
def reconfiguredCtx : VrCtx := { sampleCtx with replicas := [2, 3], old_replicas := [0, 1] }

/-- A Backup whose log holds two consecutive `Request` entries. -/
def requestLogBackup : Backup :=
  { ctx := { sampleCtx with
      op := 2,
      log := [ClientOp.request { op := 7, client_id := 0, request_num := 0 },
              ClientOp.request { op := 8, client_id := 1, request_num := 0 }] },
    primary := 0 }

/-- A StartView message that is stale for `sampleBackup` (same epoch,
view not strictly greater). -/
def staleStartView : StartViewMsg :=
  { epoch := 1, view := 0, op := 3, log := [], commit_num := 0 }

/-- A StartView message that is fresh for `sampleBackup` (same epoch,
strictly greater view) and carries one committed request. -/
def freshStartView : StartViewMsg :=
  { epoch := 1, view := 1, op := 1,
    log := [ClientOp.request { op := 9, client_id := 0, request_num := 0 }], commit_num := 1 }

/-- The Backup that `handle_start_view` produces from `sampleBackup` on
`freshStartView` at time 3: every field replaced from the message, the
one committed request executed, and the primary recomputed for view 1. -/
def freshStartViewResult : Backup :=
  { ctx := { sampleCtx with
      last_received_time := 3, view := 1, op := 1,
      log := [ClientOp.request { op := 9, client_id := 0, request_num := 0 }],
      last_normal_view := 1, commit_num := 1, backend := [9] },
    primary := 1 }

/-! ### Claims -/

/-- Claim C1: for every Backup state and every fresh Prepare whose op is
`local.op + 1`, `handle_prepare` appends the carried operation to the log,
increments `op` by exactly 1, emits a `PrepareOk{epoch, view, op}`
addressed to the cached primary, and then invokes `commit` with the
message's `commit_num`. -/
theorem handle_prepare_next_op (b : Backup) (m : PrepareMsg) (sender : Pid)
    (cid : CorrelationId) (now : Nat) (out : List Envelope)
    (hfresh : up_to_date b.ctx m.epoch m.view = true)
    (hop : m.op = b.ctx.op + 1) :
    Backup.handle_prepare b m sender cid now out =
      Backup.commit
        { b with ctx := { b.ctx with
            last_received_time := now,
            op := b.ctx.op + 1,
            log := b.ctx.log ++ [m.msg] } }
        m.commit_num
        (out ++ [{ dst := b.primary, src := b.ctx.pid,
                   msg := RMsg.prepareOk b.ctx.epoch b.ctx.view (b.ctx.op + 1) b.ctx.pid,
                   cid := cid }]) := by
  simp [Backup.handle_prepare, hfresh, hop, Backup.send_prepare_ok,
    Backup.send_to_primary, Backup.prepare_ok_msg]

/-- Witness for C1: the hypotheses of `handle_prepare_next_op` hold at a
concrete input and the theorem applies there. -/
theorem handle_prepare_next_op_witness :
    up_to_date sampleCtx 1 0 = true ∧
    Backup.handle_prepare sampleBackup
        { epoch := 1, view := 0, op := 1, commit_num := 0,
          msg := ClientOp.request { op := 9, client_id := 0, request_num := 0 } } 0 7 3 [] =
      Backup.commit
        { sampleBackup with ctx := { sampleCtx with
            last_received_time := 3,
            op := 1,
            log := [ClientOp.request { op := 9, client_id := 0, request_num := 0 }] } }
        0
        [{ dst := 0, src := 2, msg := RMsg.prepareOk 1 0 1 2, cid := 7 }] :=
  ⟨rfl, handle_prepare_next_op sampleBackup
    { epoch := 1, view := 0, op := 1, commit_num := 0,
      msg := ClientOp.request { op := 9, client_id := 0, request_num := 0 } } 0 7 3 []
    rfl rfl⟩

/-- Counterexample to Claim C2: on a Backup with `commit_num = 5`,
`commit 3` is not a no-op — it overwrites `commit_num` with 3. -/
theorem commit_stale_overwrites_commit_num :
    Backup.commit { ctx := { sampleCtx with op := 5, commit_num := 5 }, primary := 0 } 3 [] =
      some (VrState.backup
        { ctx := { sampleCtx with op := 5, commit_num := 3 }, primary := 0 }, []) ∧
    (3 : Nat) ≠ 5 :=
  ⟨rfl, by decide⟩

/-- Claim C2 as amended: for `x ≤ commit_num`, `commit x` executes
nothing, changes no field other than `commit_num`, emits no message and
stays Backup, but it sets `commit_num := x` (a no-op only when
`x = commit_num`). -/
theorem commit_le_sets_commit_num (b : Backup) (x : Nat) (out : List Envelope)
    (h : x ≤ b.ctx.commit_num) :
    Backup.commit b x out =
      some (VrState.backup { b with ctx := { b.ctx with commit_num := x } }, out) := by
  unfold Backup.commit
  rw [Nat.sub_eq_zero_of_le h]
  rfl

/-- Witness for C2's amended theorem at a concrete input. -/
theorem commit_le_sets_commit_num_witness :
    (3 : Nat) ≤ 5 ∧
    Backup.commit { ctx := { sampleCtx with op := 5, commit_num := 5 }, primary := 0 } 3 [] =
      some (VrState.backup
        { ctx := { sampleCtx with op := 5, commit_num := 3 },
          primary := 0 }, []) :=
  ⟨by decide,
   commit_le_sets_commit_num
     { ctx := { sampleCtx with op := 5, commit_num := 5 }, primary := 0 } 3 [] (by decide)⟩

/-- Claim C9: a fresh Prepare whose op exceeds `local.op + 1` yields a
transition to StateTransfer in the same view; the log, op and commit_num
are untouched and no PrepareOk is emitted (only `last_received_time`
changes). -/
theorem handle_prepare_gap (b : Backup) (m : PrepareMsg) (sender : Pid)
    (cid : CorrelationId) (now : Nat) (out : List Envelope)
    (hfresh : up_to_date b.ctx m.epoch m.view = true)
    (hop : b.ctx.op + 1 < m.op) :
    Backup.handle_prepare b m sender cid now out =
      some (VrState.stateTransfer { b.ctx with last_received_time := now }, out) := by
  have h1 : ¬ (m.op = b.ctx.op + 1) := by omega
  simp [Backup.handle_prepare, hfresh, h1, hop, StateTransfer.start_same_view]

/-- Witness for C9 at a concrete input: `op = 5` against local `op = 0`. -/
theorem handle_prepare_gap_witness :
    up_to_date sampleCtx 1 0 = true ∧ sampleCtx.op + 1 < 5 ∧
    Backup.handle_prepare sampleBackup
        { epoch := 1, view := 0, op := 5, commit_num := 0,
          msg := ClientOp.request { op := 9, client_id := 0, request_num := 0 } } 0 7 3 [] =
      some (VrState.stateTransfer { sampleCtx with last_received_time := 3 }, []) :=
  ⟨rfl, by decide,
   handle_prepare_gap sampleBackup
     { epoch := 1, view := 0, op := 5, commit_num := 0,
       msg := ClientOp.request { op := 9, client_id := 0, request_num := 0 } } 0 7 3 []
     rfl (by decide)⟩

/-- Claim C10: Recovery and StartEpoch are handled without any freshness
filtering: for every Backup state and every such message the handler
emits exactly one response, addressed to the requester and carrying the
correlation id, and remains Backup with the context unchanged. -/
theorem handle_recovery_start_epoch_unconditional (b : Backup) (mr : RecoveryMsg)
    (ms : StartEpochMsg) (sender : Pid) (cid : CorrelationId) (now : Nat)
    (out : List Envelope) :
    Backup.handle b (VrMsg.recovery mr) sender cid now out =
      some (VrState.backup b,
        out ++ [{ dst := sender, src := b.ctx.pid,
                  msg := RMsg.recoveryResponse mr.nonce, cid := cid }]) ∧
    Backup.handle b (VrMsg.startEpoch ms) sender cid now out =
      some (VrState.backup b,
        out ++ [{ dst := sender, src := b.ctx.pid,
                  msg := RMsg.epochStarted b.ctx.epoch, cid := cid }]) :=
  ⟨rfl, rfl⟩

@[simp] lemma reconfigCtx_view (ctx : VrCtx) (i : Nat) (r : ReconfigurationMsg) :
    (reconfigCtx ctx i r).view = ctx.view := rfl

@[simp] lemma reconfigCtx_op (ctx : VrCtx) (i : Nat) (r : ReconfigurationMsg) :
    (reconfigCtx ctx i r).op = ctx.op := rfl

@[simp] lemma reconfigCtx_log (ctx : VrCtx) (i : Nat) (r : ReconfigurationMsg) :
    (reconfigCtx ctx i r).log = ctx.log := rfl

@[simp] lemma reconfigCtx_last_normal_view (ctx : VrCtx) (i : Nat) (r : ReconfigurationMsg) :
    (reconfigCtx ctx i r).last_normal_view = ctx.last_normal_view := rfl

@[simp] lemma reconfigCtx_commit_num (ctx : VrCtx) (i : Nat) (r : ReconfigurationMsg) :
    (reconfigCtx ctx i r).commit_num = ctx.commit_num := rfl

@[simp] lemma reconfigBackup_ctx (b : Backup) (i : Nat) (r : ReconfigurationMsg) :
    (reconfigBackup b i r).ctx = reconfigCtx b.ctx i r := rfl

@[simp] lemma reconfigBackup_primary (b : Backup) (i : Nat) (r : ReconfigurationMsg) :
    (reconfigBackup b i r).primary = (reconfigCtx b.ctx i r).compute_primary := rfl

/-! ### Step lemmas for the commit loop -/

/-- One step of the commit loop at a missing log index panics. -/
lemma commitK_none_step (b : Backup) (i k target : Nat) (out : List Envelope)
    (hl : b.ctx.log[i]? = none) :
    Backup.commitK b i (k + 1) target out = none := by
  rw [Backup.commitK, hl]

/-- One step of the commit loop at a `Request` entry executes it against
the backend and continues. -/
lemma commitK_request_step (b : Backup) (i k target : Nat) (out : List Envelope)
    (req : ClientRequest) (hl : b.ctx.log[i]? = some (ClientOp.request req)) :
    Backup.commitK b i (k + 1) target out =
      Backup.commitK { b with ctx := { b.ctx with backend := b.ctx.backend ++ [req.op] } }
        (i + 1) k target out := by
  rw [Backup.commitK, hl]

/-- One step of the commit loop at a `Reconfiguration` entry: adopt the
new epoch/membership, announce, recompute the primary, then short-circuit
into `enter_transitioning` exactly when the commit target equals the log
length, else continue. -/
lemma commitK_reconfig_step (b : Backup) (i k target : Nat) (out : List Envelope)
    (r : ReconfigurationMsg) (hl : b.ctx.log[i]? = some (ClientOp.reconfiguration r)) :
    Backup.commitK b i (k + 1) target out =
      if target = b.ctx.log.length then
        some (Backup.enter_transitioning
          { reconfigBackup b i r with
            ctx := { (reconfigBackup b i r).ctx with commit_num := target } }
          (reconfigOut b i r out))
      else
        Backup.commitK (reconfigBackup b i r) (i + 1) k target (reconfigOut b i r out) := by
  rw [Backup.commitK, hl]
  rfl

/-- `enter_transitioning` returns the context it was given, except that it
may clear `reconfiguration_in_progress`. -/
lemma enter_transitioning_ctx (b : Backup) (out : List Envelope) :
    (Backup.enter_transitioning b out).1.ctx = b.ctx ∨
    (Backup.enter_transitioning b out).1.ctx =
      { b.ctx with reconfiguration_in_progress := false } := by
  unfold Backup.enter_transitioning
  split
  · exact Or.inl rfl
  · split
    · exact Or.inr rfl
    · exact Or.inl rfl

@[simp] lemma enter_transitioning_view (b : Backup) (out : List Envelope) :
    (Backup.enter_transitioning b out).1.ctx.view = b.ctx.view := by
  unfold Backup.enter_transitioning; split_ifs <;> rfl

@[simp] lemma enter_transitioning_op (b : Backup) (out : List Envelope) :
    (Backup.enter_transitioning b out).1.ctx.op = b.ctx.op := by
  unfold Backup.enter_transitioning; split_ifs <;> rfl

@[simp] lemma enter_transitioning_log (b : Backup) (out : List Envelope) :
    (Backup.enter_transitioning b out).1.ctx.log = b.ctx.log := by
  unfold Backup.enter_transitioning; split_ifs <;> rfl

@[simp] lemma enter_transitioning_last_normal_view (b : Backup) (out : List Envelope) :
    (Backup.enter_transitioning b out).1.ctx.last_normal_view = b.ctx.last_normal_view := by
  unfold Backup.enter_transitioning; split_ifs <;> rfl

@[simp] lemma enter_transitioning_commit_num (b : Backup) (out : List Envelope) :
    (Backup.enter_transitioning b out).1.ctx.commit_num = b.ctx.commit_num := by
  unfold Backup.enter_transitioning; split_ifs <;> rfl

/-- Whenever the commit loop returns a state, that state's context keeps
the view, op, log and last_normal_view it started with and has
`commit_num = target`. -/
lemma commitK_some_fields :
    ∀ (k : Nat) (b : Backup) (i target : Nat) (out : List Envelope)
      (st : VrState) (o : List Envelope),
    Backup.commitK b i k target out = some (st, o) →
    st.ctx.view = b.ctx.view ∧ st.ctx.op = b.ctx.op ∧ st.ctx.log = b.ctx.log ∧
      st.ctx.last_normal_view = b.ctx.last_normal_view ∧ st.ctx.commit_num = target := by
  intro k
  induction k with
  | zero =>
    intro b i target out st o h
    simp only [Backup.commitK, Option.some.injEq, Prod.mk.injEq] at h
    obtain ⟨h1, h2⟩ := h
    subst h1
    simp [VrState.ctx]
  | succ k ih =>
    intro b i target out st o h
    cases hl : b.ctx.log[i]? with
    | none => rw [commitK_none_step b i k target out hl] at h; exact absurd h (by simp)
    | some entry =>
      cases entry with
      | request req =>
        rw [commitK_request_step b i k target out req hl] at h
        have h2 := ih _ _ _ _ _ _ h
        simpa using h2
      | reconfiguration r =>
        rw [commitK_reconfig_step b i k target out r hl] at h
        split at h
        · next hc =>
          simp only [Option.some.injEq] at h
          have hst := congrArg Prod.fst h
          dsimp only at hst
          rw [← hst]
          simp
        · next hc =>
          have h2 := ih _ _ _ _ _ _ h
          simpa using h2

/-- When the commit target is strictly below the log length, the loop can
never short-circuit: any state it returns is a Backup with
`commit_num = target`. -/
lemma commitK_lt_length_backup :
    ∀ (k : Nat) (b : Backup) (i target : Nat) (out : List Envelope)
      (st : VrState) (o : List Envelope),
    target < b.ctx.log.length →
    Backup.commitK b i k target out = some (st, o) →
    ∃ b2, st = VrState.backup b2 ∧ b2.ctx.commit_num = target := by
  intro k
  induction k with
  | zero =>
    intro b i target out st o hlt h
    simp only [Backup.commitK, Option.some.injEq, Prod.mk.injEq] at h
    exact ⟨_, h.1.symm, rfl⟩
  | succ k ih =>
    intro b i target out st o hlt h
    cases hl : b.ctx.log[i]? with
    | none => rw [commitK_none_step b i k target out hl] at h; exact absurd h (by simp)
    | some entry =>
      cases entry with
      | request req =>
        rw [commitK_request_step b i k target out req hl] at h
        refine ih _ _ _ _ _ _ ?_ h
        simpa using hlt
      | reconfiguration r =>
        rw [commitK_reconfig_step b i k target out r hl] at h
        split at h
        · next hc => omega
        · next hc =>
          refine ih _ _ _ _ _ _ ?_ h
          simpa using hlt

/-- Replaying the loop over consecutive `Request` entries executes exactly
those operations against the backend, in log order, and changes nothing
else; the final state is a Backup with `commit_num = target`. -/
lemma commitK_requests :
    ∀ (es : List ClientRequest) (b : Backup) (i target : Nat) (out : List Envelope),
    (∀ j, j < es.length → b.ctx.log[i + j]? = (es[j]?).map ClientOp.request) →
    Backup.commitK b i es.length target out =
      some (VrState.backup
        { b with ctx := { b.ctx with
            commit_num := target,
            backend := b.ctx.backend ++ es.map (fun e => e.op) } }, out) := by
  intro es
  induction es with
  | nil =>
    intro b i target out h
    simp [Backup.commitK]
  | cons e es ih =>
    intro b i target out h
    have h0 : b.ctx.log[i]? = some (ClientOp.request e) := by
      have := h 0 (by simp)
      simpa using this
    simp only [List.length_cons]
    rw [commitK_request_step b i es.length target out e h0]
    have hrest : ∀ j, j < es.length →
        ({ b with ctx := { b.ctx with backend := b.ctx.backend ++ [e.op] } } :
          Backup).ctx.log[(i + 1) + j]? = (es[j]?).map ClientOp.request := by
      intro j hj
      have h2 := h (j + 1) (by simp only [List.length_cons]; omega)
      have harith : i + (j + 1) = (i + 1) + j := by omega
      rw [harith] at h2
      simpa using h2
    rw [ih _ (i + 1) target out hrest]
    simp

/-- If `enter_transitioning` stays in the Backup role, the cached primary
is still the computed primary (its context changes in no field that
`compute_primary` reads). -/
lemma enter_transitioning_backup_primary (b : Backup) (out : List Envelope) (b2 : Backup)
    (hp : b.primary = b.ctx.compute_primary)
    (h : (Backup.enter_transitioning b out).1 = VrState.backup b2) :
    b2.primary = b2.ctx.compute_primary := by
  unfold Backup.enter_transitioning at h
  split at h
  · dsimp only at h
    exact absurd h (by simp)
  · split at h
    · dsimp only at h
      injection h with h
      rw [← h]
      simpa [VrCtx.compute_primary] using hp
    · dsimp only at h
      injection h with h
      rw [← h]
      exact hp

/-- The commit loop preserves the invariant that the cached primary is
the computed primary of the current context: every reconfiguration arm
calls `set_primary`, and no other arm changes epoch, view or
membership. -/
lemma commitK_primary :
    ∀ (k : Nat) (b : Backup) (i target : Nat) (out : List Envelope)
      (st : VrState) (o : List Envelope) (b2 : Backup),
    b.primary = b.ctx.compute_primary →
    Backup.commitK b i k target out = some (st, o) →
    st = VrState.backup b2 →
    b2.primary = b2.ctx.compute_primary := by
  intro k
  induction k with
  | zero =>
    intro b i target out st o b2 hp h hst
    simp only [Backup.commitK, Option.some.injEq, Prod.mk.injEq] at h
    rw [← h.1] at hst
    injection hst with hst
    rw [← hst]
    simpa [VrCtx.compute_primary] using hp
  | succ k ih =>
    intro b i target out st o b2 hp h hst
    cases hl : b.ctx.log[i]? with
    | none => rw [commitK_none_step b i k target out hl] at h; exact absurd h (by simp)
    | some entry =>
      cases entry with
      | request req =>
        rw [commitK_request_step b i k target out req hl] at h
        refine ih _ _ _ _ _ _ _ ?_ h hst
        simpa [VrCtx.compute_primary] using hp
      | reconfiguration r =>
        rw [commitK_reconfig_step b i k target out r hl] at h
        split at h
        · next hc =>
          simp only [Option.some.injEq] at h
          have hfst := congrArg Prod.fst h
          dsimp only at hfst
          rw [hst] at hfst
          exact enter_transitioning_backup_primary _ _ _ rfl hfst
        · next hc =>
          exact ih _ _ _ _ _ _ _ rfl h hst

/-- Counterexample to Claim C3: in `backupWithReconfig` the
Reconfiguration entry sits at index 0 of a 2-entry log — it is not the
last entry — yet `commit 2` short-circuits into role-determination: the
result is the Leaving role and the Request at index 1 is never executed
(the backend trace stays empty), instead of the loop continuing and the
state remaining Backup. -/
theorem commit_reconfig_not_last_short_circuits :
    backupWithReconfig.ctx.log.length = 2 ∧
    backupWithReconfig.ctx.log[0]? = some (ClientOp.reconfiguration reconfigEntry) ∧
    Backup.commit backupWithReconfig 2 [] =
      some (VrState.leaving { sampleCtx with
          epoch := 2, commit_num := 2,
          log := [ClientOp.reconfiguration reconfigEntry,
                  ClientOp.request { op := 7, client_id := 0, request_num := 0 }],
          replicas := [0, 1], old_replicas := [0, 1, 2] },
        [{ dst := 100, src := 2, msg := RMsg.reconfigurationAnnouncement 2 [0, 1], cid := 0 },
         { dst := 100, src := 2, msg := RMsg.newPrimary 0, cid := 0 }]) :=
  ⟨rfl, rfl, rfl⟩

/-- Claim C3 (amended): when the commit loop reaches a Reconfiguration
entry it adopts the epoch/membership, announces, recomputes the primary,
and then sets `commit_num` and enters role-determination
(`enter_transitioning`) if and only if `new_commit_num` equals the log
length at that moment — not iff the entry is the last one; when
`new_commit_num` is below the log length the loop continues, and any
state the loop returns is a Backup with `commit_num = new_commit_num`. -/
theorem commit_reconfiguration_short_circuit (b : Backup) (i k target : Nat)
    (out : List Envelope) (r : ReconfigurationMsg)
    (hl : b.ctx.log[i]? = some (ClientOp.reconfiguration r)) :
    (Backup.commitK b i (k + 1) target out =
      if target = b.ctx.log.length then
        some (Backup.enter_transitioning
          { reconfigBackup b i r with
            ctx := { (reconfigBackup b i r).ctx with commit_num := target } }
          (reconfigOut b i r out))
      else
        Backup.commitK (reconfigBackup b i r) (i + 1) k target (reconfigOut b i r out)) ∧
    (target < b.ctx.log.length →
      ∀ st o, Backup.commitK b i (k + 1) target out = some (st, o) →
        ∃ b2, st = VrState.backup b2 ∧ b2.ctx.commit_num = target) := by
  constructor
  · exact commitK_reconfig_step b i k target out r hl
  · intro hlt st o h
    exact commitK_lt_length_backup (k + 1) b i target out st o hlt h

/-- Witness for C3's amended theorem: at `backupWithReconfig` with commit
target 2 (= log length) the loop short-circuits at the Reconfiguration
entry into role-determination, here ending in the Leaving role. -/
theorem commit_reconfiguration_short_circuit_witness :
    Backup.commitK backupWithReconfig 0 (1 + 1) 2 [] =
      some (VrState.leaving { sampleCtx with
          epoch := 2, commit_num := 2,
          log := [ClientOp.reconfiguration reconfigEntry,
                  ClientOp.request { op := 7, client_id := 0, request_num := 0 }],
          replicas := [0, 1], old_replicas := [0, 1, 2] },
        [{ dst := 100, src := 2, msg := RMsg.reconfigurationAnnouncement 2 [0, 1], cid := 0 },
         { dst := 100, src := 2, msg := RMsg.newPrimary 0, cid := 0 }]) := by
  have h := (commit_reconfiguration_short_circuit backupWithReconfig 0 1 2 [] reconfigEntry rfl).1
  rw [h]
  rfl

/-- Claim C4: the source of `enter_transitioning` lacks a `return` in the
`is_primary` branch, so on the failing input — a replica that is not
leaving and is the computed primary of the new configuration — it clears
`reconfiguration_in_progress` but falls through and returns the Backup
role instead of the Primary role; the Primary outcome of the claim's
three-way decision is never produced. -/
theorem enter_transitioning_primary_fallthrough :
    reconfiguredCtx.is_leaving = false ∧
    reconfiguredCtx.is_primary = true ∧
    Backup.enter_transitioning { ctx := reconfiguredCtx, primary := 2 } [] =
      (VrState.backup
        { ctx := { reconfiguredCtx with reconfiguration_in_progress := false }, primary := 2 },
       [{ dst := 0, src := 2, msg := RMsg.epochStarted 1, cid := 0 },
        { dst := 1, src := 2, msg := RMsg.epochStarted 1, cid := 0 }]) :=
  ⟨rfl, rfl, rfl⟩

/-- Claim C8: replaying `commit` over `k` consecutive `Request` entries
executes exactly those `k` operations against the backend, once each, in
ascending op-number order, appending them to the backend trace in log
order; nothing else changes and no message is emitted. -/
theorem commit_requests_backend_trace (b : Backup) (es : List ClientRequest)
    (out : List Envelope)
    (h : ∀ j, j < es.length →
      b.ctx.log[b.ctx.commit_num + j]? = (es[j]?).map ClientOp.request) :
    Backup.commit b (b.ctx.commit_num + es.length) out =
      some (VrState.backup
        { b with ctx := { b.ctx with
            commit_num := b.ctx.commit_num + es.length,
            backend := b.ctx.backend ++ es.map (fun e => e.op) } }, out) := by
  unfold Backup.commit
  rw [Nat.add_sub_cancel_left]
  exact commitK_requests es b b.ctx.commit_num _ out h

/-- Witness for C8: committing the two requests of `requestLogBackup`
executes ops 7 then 8 against the backend. -/
theorem commit_requests_backend_trace_witness :
    Backup.commit requestLogBackup 2 [] =
      some (VrState.backup
        { requestLogBackup with ctx := { requestLogBackup.ctx with
            commit_num := 2, backend := [7, 8] } }, []) := by
  exact commit_requests_backend_trace requestLogBackup
    [{ op := 7, client_id := 0, request_num := 0 },
     { op := 8, client_id := 1, request_num := 0 }] [] (by decide)

/-- Claim C7: a Tick strictly below the idle timeout leaves the role and
context unchanged and produces no output; at or above the timeout the
view is incremented by exactly 1, the role becomes the
StartViewChange-initiating role, and — whenever the membership holds at
least one peer besides this replica — at least one StartViewChange
broadcast message is emitted. -/
theorem handle_tick_idle_timeout (b : Backup) (now : Nat) (out : List Envelope) :
    (b.ctx.idle_timeout now = false →
      Backup.handle_tick b now out = (VrState.backup b, out)) ∧
    (b.ctx.idle_timeout now = true →
      Backup.handle_tick b now out =
        (VrState.startViewChange
          { b.ctx with last_received_time := now, view := b.ctx.view + 1 },
         StartViewChange.broadcast_start_view_change
          { b.ctx with last_received_time := now, view := b.ctx.view + 1 } out) ∧
      ((∃ p, p ∈ b.ctx.replicas ∧ p ≠ b.ctx.pid) →
        out.length <
          (StartViewChange.broadcast_start_view_change
            { b.ctx with last_received_time := now, view := b.ctx.view + 1 } out).length)) := by
  constructor
  · intro hto
    simp [Backup.handle_tick, hto]
  · intro hto
    constructor
    · simp [Backup.handle_tick, hto]
    · rintro ⟨p, hp, hne⟩
      simp only [StartViewChange.broadcast_start_view_change, List.length_append,
        List.length_map]
      have hmem : p ∈ List.filter (fun q => decide (q ≠ b.ctx.pid)) b.ctx.replicas := by
        rw [List.mem_filter]
        exact ⟨hp, by simpa using hne⟩
      have hpos : 0 < (List.filter (fun q => decide (q ≠ b.ctx.pid)) b.ctx.replicas).length :=
        List.length_pos.mpr (List.ne_nil_of_mem hmem)
      omega

/-- Witness for C7: `sampleBackup` at time 100 is past its idle timeout;
the tick increments the view to 1, moves to the StartViewChange role and
broadcasts to both peers. -/
theorem handle_tick_idle_timeout_witness :
    sampleCtx.idle_timeout 100 = true ∧
    Backup.handle_tick sampleBackup 100 [] =
      (VrState.startViewChange { sampleCtx with last_received_time := 100, view := 1 },
       StartViewChange.broadcast_start_view_change
        { sampleCtx with last_received_time := 100, view := 1 } []) ∧
    ([] : List Envelope).length <
      (StartViewChange.broadcast_start_view_change
        { sampleCtx with last_received_time := 100, view := 1 } []).length := by
  have h := (handle_tick_idle_timeout sampleBackup 100 []).2 rfl
  exact ⟨rfl, h.1, h.2 ⟨0, by decide, by decide⟩⟩

/-- Claim C6: `handle_start_view` is all-or-nothing.  On a stale message
(epoch older, or same epoch and view not strictly greater) nothing
changes and no output is produced; otherwise any state it returns has
view, op, log, last_normal_view and commit_num equal to the values
derived from the StartView message — no partially replaced context is
observable. -/
theorem handle_start_view_all_or_nothing (b : Backup) (m : StartViewMsg) (sender : Pid)
    (cid : CorrelationId) (now : Nat) (out : List Envelope) :
    ((m.epoch < b.ctx.epoch ∨ (m.epoch = b.ctx.epoch ∧ m.view ≤ b.ctx.view)) →
      Backup.handle_start_view b m sender cid now out = some (VrState.backup b, out)) ∧
    (¬ (m.epoch < b.ctx.epoch ∨ (m.epoch = b.ctx.epoch ∧ m.view ≤ b.ctx.view)) →
      ∀ st o, Backup.handle_start_view b m sender cid now out = some (st, o) →
        st.ctx.view = m.view ∧ st.ctx.op = m.op ∧ st.ctx.log = m.log ∧
          st.ctx.last_normal_view = m.view ∧ st.ctx.commit_num = m.commit_num) := by
  constructor
  · intro hstale
    unfold Backup.handle_start_view
    rcases hstale with h1 | h2
    · rw [if_pos h1]
    · rw [if_neg (by omega), if_pos h2]
  · intro hfresh st o h
    unfold Backup.handle_start_view at h
    rw [if_neg (fun hlt => hfresh (Or.inl hlt)),
        if_neg (fun he => hfresh (Or.inr he))] at h
    unfold Backup.become_backup Backup.commit at h
    have h5 := commitK_some_fields _ _ _ _ _ _ _ h
    simpa [Backup.set_primary] using h5

/-- Witness for C6: the stale branch at `staleStartView` leaves
`sampleBackup` untouched, and the fresh branch at `freshStartView`
replaces every field with the message's values. -/
theorem handle_start_view_all_or_nothing_witness :
    (staleStartView.epoch = sampleBackup.ctx.epoch ∧
      staleStartView.view ≤ sampleBackup.ctx.view) ∧
    Backup.handle_start_view sampleBackup staleStartView 0 7 3 [] =
      some (VrState.backup sampleBackup, []) ∧
    ((VrState.backup freshStartViewResult).ctx.view = freshStartView.view ∧
     (VrState.backup freshStartViewResult).ctx.op = freshStartView.op ∧
     (VrState.backup freshStartViewResult).ctx.log = freshStartView.log ∧
     (VrState.backup freshStartViewResult).ctx.last_normal_view = freshStartView.view ∧
     (VrState.backup freshStartViewResult).ctx.commit_num = freshStartView.commit_num) :=
  ⟨⟨rfl, by decide⟩,
   (handle_start_view_all_or_nothing sampleBackup staleStartView 0 7 3 []).1
     (Or.inr ⟨rfl, by decide⟩),
   (handle_start_view_all_or_nothing sampleBackup freshStartView 0 7 3 []).2
     (by decide) _ _ rfl⟩

/-- If a handler branch literally returns `(VrState.backup X, out)`, the
resulting Backup is `X`. -/
lemma backup_result_eq {X b2 : Backup} {o2 o : List Envelope} {st : VrState}
    (h : (some (VrState.backup X, o2) : Option (VrState × List Envelope)) = some (st, o))
    (hst : st = VrState.backup b2) : b2 = X := by
  rw [hst] at h
  simp only [Option.some.injEq, Prod.mk.injEq, VrState.backup.injEq] at h
  exact h.1.symm

/-- Counterexample to Claim C5: `sampleBackup` starts with its cached
primary equal to the computed one; a timed-out Tick increments the view
and returns without recomputing the primary — no new-primary
notification appears in the output, and the computed primary of the
resulting context differs from the cached one. -/
theorem handle_tick_no_primary_recompute :
    sampleBackup.primary = sampleBackup.ctx.compute_primary ∧
    Backup.handle sampleBackup VrMsg.tick 0 0 100 [] =
      some (VrState.startViewChange { sampleCtx with last_received_time := 100, view := 1 },
        [{ dst := 0, src := 2, msg := RMsg.startViewChangeMsg 1 1 2, cid := 0 },
         { dst := 1, src := 2, msg := RMsg.startViewChangeMsg 1 1 2, cid := 0 }]) ∧
    List.all
      ([{ dst := 0, src := 2, msg := RMsg.startViewChangeMsg 1 1 2, cid := 0 },
        { dst := 1, src := 2, msg := RMsg.startViewChangeMsg 1 1 2, cid := 0 }] : List Envelope)
      (fun e => !(RMsg.is_new_primary e.msg)) = true ∧
    ({ sampleCtx with last_received_time := 100, view := 1 } : VrCtx).compute_primary ≠
      sampleBackup.primary :=
  ⟨rfl, rfl, rfl, by decide⟩

/-- Claim C5 (amended): every transition of the Backup role that results
in the Backup role preserves `primary = compute_primary(epoch, view,
membership)` — every path that changes epoch, view or membership and
stays Backup recomputes the primary first.  (The timed-out Tick changes
the view without recomputing, but it leaves the Backup role and discards
the cached primary; see the counterexample.) -/
theorem backup_transition_primary_recomputed (b : Backup) (msg : VrMsg) (sender : Pid)
    (cid : CorrelationId) (now : Nat) (out : List Envelope) (st : VrState)
    (o : List Envelope) (b2 : Backup)
    (hp : b.primary = b.ctx.compute_primary)
    (h : Backup.handle b msg sender cid now out = some (st, o))
    (hst : st = VrState.backup b2) :
    b2.primary = b2.ctx.compute_primary := by
  cases msg with
  | prepare m =>
    simp only [Backup.handle, Backup.handle_prepare, Backup.send_prepare_ok] at h
    split_ifs at h with h1 h2 h3
    · unfold Backup.commit at h
      refine commitK_primary _ _ _ _ _ _ _ _ ?_ h hst
      simpa [VrCtx.compute_primary] using hp
    · rw [hst] at h
      simp [StateTransfer.start_same_view] at h
    · have he := backup_result_eq h hst
      subst he
      simpa [VrCtx.compute_primary] using hp
    · have he := backup_result_eq h hst
      subst he
      exact hp
  | commitMsg m =>
    simp only [Backup.handle, Backup.handle_commit] at h
    split_ifs at h with h1 h2 h3
    · have he := backup_result_eq h hst
      subst he
      simpa [VrCtx.compute_primary] using hp
    · unfold Backup.commit at h
      refine commitK_primary _ _ _ _ _ _ _ _ ?_ h hst
      simpa [VrCtx.compute_primary] using hp
    · rw [hst] at h
      simp [StateTransfer.start_same_view] at h
    · have he := backup_result_eq h hst
      subst he
      exact hp
  | startViewChange m =>
    simp only [Backup.handle, Backup.handle_start_view_change] at h
    split_ifs at h with h1 h2
    · have he := backup_result_eq h hst
      subst he
      exact hp
    · have he := backup_result_eq h hst
      subst he
      exact hp
    · rw [hst] at h
      simp [StartViewChange.start_view_change] at h
  | doViewChange m =>
    simp only [Backup.handle, Backup.handle_do_view_change] at h
    split_ifs at h with h1 h2
    · have he := backup_result_eq h hst
      subst he
      exact hp
    · have he := backup_result_eq h hst
      subst he
      exact hp
    · rw [hst] at h
      simp [DoViewChange.start_do_view_change] at h
  | startView m =>
    simp only [Backup.handle, Backup.handle_start_view, Backup.become_backup,
      Backup.set_primary] at h
    split_ifs at h with h1 h2
    · have he := backup_result_eq h hst
      subst he
      exact hp
    · have he := backup_result_eq h hst
      subst he
      exact hp
    · unfold Backup.commit at h
      exact commitK_primary _ _ _ _ _ _ _ _ rfl h hst
  | tick =>
    simp only [Backup.handle, Backup.handle_tick] at h
    split_ifs at h with h1
    · rw [hst] at h
      simp at h
    · have he := backup_result_eq h hst
      subst he
      exact hp
  | getState m =>
    simp only [Backup.handle, Backup.handle_get_state] at h
    split_ifs at h with h1 h2
    · have he := backup_result_eq h hst
      subst he
      exact hp
    · have he := backup_result_eq h hst
      subst he
      exact hp
    · have he := backup_result_eq h hst
      subst he
      exact hp
  | recovery m =>
    simp only [Backup.handle, Backup.handle_recovery] at h
    have he := backup_result_eq h hst
    subst he
    exact hp
  | startEpoch m =>
    simp only [Backup.handle, Backup.handle_start_epoch] at h
    have he := backup_result_eq h hst
    subst he
    exact hp
  | other =>
    simp only [Backup.handle] at h
    have he := backup_result_eq h hst
    subst he
    exact hp

/-- Witness for C5's amended theorem: applying it to a Recovery message
on `sampleBackup`, whose cached primary is the computed one. -/
theorem backup_transition_primary_recomputed_witness :
    sampleBackup.primary = sampleBackup.ctx.compute_primary :=
  backup_transition_primary_recomputed sampleBackup (VrMsg.recovery { nonce := 5 }) 9 7 3 []
    (VrState.backup sampleBackup)
    [{ dst := 9, src := 2, msg := RMsg.recoveryResponse 5, cid := 7 }]
    sampleBackup rfl rfl rfl
